import Mathlib

/-!
Verification of the G4solarcell prediction backend
(`src/G4solarcell/backendsolar/solarbackend.py`).

The Python module exposes a Flask endpoint `/predict` that validates four
sensor readings, scales them with a pre-fit scaler, runs a classifier and
returns a label plus per-class probabilities.  This file is a shallow
embedding of that module: Python floats become the type `FVal`
(a rational number, NaN, or a signed infinity, with IEEE-style comparison
semantics where NaN compares false), JSON request bodies become `JsonVal`
association lists, Python exceptions become the `PyErr` error type of an
`Except` computation, and the scaler / classifier artifacts become opaque
functions stored in the `ServerState`.  Exact binary floating point
rounding is idealised by exact rational arithmetic; no claim below
depends on rounding.
-/

/-- Model of a Python float value: a finite rational, NaN, or a signed
infinity.  CPython `float` objects are IEEE doubles; we idealise the
finite ones as exact rationals. -/
inductive FVal where
  | nan : FVal
  | inf : FVal
  | ninf : FVal
  | num : ℚ → FVal
deriving DecidableEq, Repr

/-- IEEE-style `<=` on model floats: any comparison involving NaN is
false, `-inf` is below everything else, `inf` above everything else. -/
def fle : FVal → FVal → Bool
  | .nan, _ => false
  | _, .nan => false
  | .ninf, _ => true
  | _, .inf => true
  | .inf, _ => false
  | .num _, .ninf => false
  | .num a, .num b => decide (a ≤ b)

/-- IEEE-style strict `<` on model floats. -/
def flt : FVal → FVal → Bool
  | .nan, _ => false
  | _, .nan => false
  | .ninf, .ninf => false
  | .ninf, _ => true
  | _, .ninf => false
  | .inf, _ => false
  | .num _, .inf => true
  | .num a, .num b => decide (a < b)

-- Physical sensor bounds, from the module constants (solarbackend.py lines 19-22).
def VOLT_MIN : FVal := .num (-5)
def VOLT_MAX : FVal := .num 20
def TEMP_MIN : FVal := .num (-50)
def TEMP_MAX : FVal := .num 60
def DUST_MIN : FVal := .num 0
def DUST_MAX : FVal := .num 1000
def LIGHT_MIN : FVal := .num (-10)
def LIGHT_MAX : FVal := .num 20000

/-- Round a rational to the nearest integer, ties to even: the rounding
used by Python `format(x, ".2f")` (idealised to exact arithmetic). -/
def roundHalfEven (x : ℚ) : ℤ :=
  let f := ⌊x⌋
  let r := x - (f : ℚ)
  if r < 1/2 then f
  else if 1/2 < r then f + 1
  else if f % 2 = 0 then f else f + 1

/-- Render a rational with exactly two decimal places, as Python
`f-string` formatting `:.2f` does (sign kept even when the rounded
magnitude is zero, matching the sign of the value). -/
def fmtQ2 (q : ℚ) : String :=
  let n := roundHalfEven (q * 100)
  let m := n.natAbs
  let sign := if q < 0 then "-" else ""
  let frac := m % 100
  let fracStr := (if frac < 10 then "0" else "") ++ toString frac
  sign ++ toString (m / 100) ++ "." ++ fracStr

/-- Python `f"{v:.2f}"` on a model float (`format(float("nan"), ".2f")`
is `"nan"`, similarly for the infinities). -/
def fmt2 : FVal → String
  | .nan => "nan"
  | .inf => "inf"
  | .ninf => "-inf"
  | .num q => fmtQ2 q

-- The four validation messages built by validate_sensor_inputs
-- (solarbackend.py lines 32, 35, 38, 41).  The interpolated bound
-- constants render as Python str() of the floats: "-5.0", "20.0", ...

def voltage_message (volt : FVal) : String :=
  "Input Error: Voltage (" ++ fmt2 volt ++
    " V) อยู่นอกขอบเขตที่รับได้ (-5.0 V ถึง 20.0 V)"

def temperature_message (temp : FVal) : String :=
  "Input Error: Temperature (" ++ fmt2 temp ++
    "°C) อยู่นอกขอบเขตที่รับได้ (-50.0°C ถึง 60.0°C)"

def dust_message (dust : FVal) : String :=
  "Input Error: Dust (" ++ fmt2 dust ++
    " µg/m³) อยู่นอกขอบเขตที่รับได้ (0.0 µg/m³ ถึง 1000.0 µg/m³)"

def irradiance_message (light : FVal) : String :=
  "Input Error: Irradiance (" ++ fmt2 light ++
    " lx) อยู่นอกขอบเขตที่รับได้ (-10.0 lx ถึง 20000.0 lx)"

/-- Embedding of `validate_sensor_inputs` (solarbackend.py lines 25-43):
check each field against its bound in the fixed order voltage,
temperature, dust, irradiance; return the first violation message, or
`none` when all four pass.  The Python chained comparison
`LO <= x <= HI` is `(LO <= x) and (x <= HI)`. -/
def validate_sensor_inputs (volt temp dust light : FVal) : Option String :=
  if !(fle VOLT_MIN volt && fle volt VOLT_MAX) then
    some (voltage_message volt)
  else if !(fle TEMP_MIN temp && fle temp TEMP_MAX) then
    some (temperature_message temp)
  else if !(fle DUST_MIN dust && fle dust DUST_MAX) then
    some (dust_message dust)
  else if !(fle LIGHT_MIN light && fle light LIGHT_MAX) then
    some (irradiance_message light)
  else
    none

/-- The label dictionary `LABEL_MAP` (solarbackend.py lines 76-87),
as a partial map from class index to display string. -/
def LABEL_MAP : ℕ → Option String
  | 0 => some "ปกติ (Normal)"
  | 1 => some "ฝุ่น (Soiling)"
  | 2 => some "อุณหภูมิสูง (High Temp)"
  | 3 => some "เงาบัง (Shading)"
  | 4 => some "Sensor Error / ค่าผิดปกติเกินขอบเขต"
  | 5 => some "ร้อน+เงา (Temp + Shade)"
  | 6 => some "ฝุ่น+ร้อน (Dust + Temp)"
  | 7 => some "ฝุ่น+เงา (Dust + Shade)"
  | 8 => some "ฝุ่น+ร้อน+เงา (Worst Case)"
  | 9 => some "อุณหภูมิต่ำ (Low Temp)"
  | _ => none

/-- A JSON value as delivered by Flask `request.get_json()`: JSON has no
NaN or infinity literal, so numbers are rationals. -/
inductive JsonVal where
  | jnull : JsonVal
  | jbool : Bool → JsonVal
  | jnum : ℚ → JsonVal
  | jstr : String → JsonVal
  | jarr : List JsonVal → JsonVal
  | jobj : List (String × JsonVal) → JsonVal

/-- A Python exception as it matters to the handler: the two `except`
clauses distinguish `ValueError` from everything else, and the generic
clause interpolates `str(e)`, so we carry that string. -/
inductive PyErr where
  | valueError : String → PyErr
  | typeError : String → PyErr
  | keyError : String → PyErr
deriving DecidableEq, Repr

/-- Python `str(e)` of a modelled exception. -/
def PyErr.str : PyErr → String
  | .valueError m => m
  | .typeError m => m
  | .keyError m => m

/-- Whether the exception is a `ValueError` (matched by the first
`except` clause of `predict`). -/
def PyErr.isValueError : PyErr → Bool
  | .valueError _ => true
  | _ => false

-- ----- Model of the builtin `float(str)` string parser -----

/-- Numeric value of a list of decimal digit characters. -/
def digitsVal (l : List Char) : ℕ :=
  l.foldl (fun a c => a * 10 + (c.toNat - 48)) 0

/-- Exponent digits of a float literal: at least one digit, digits only. -/
def expDigits (ds : List Char) : Option ℤ :=
  if ds ≠ [] ∧ ds.all Char.isDigit then some (digitsVal ds : ℤ) else none

/-- After the mantissa of a float literal: either the end of the string
or an exponent part `e`/`E`, optional sign, digits. -/
def parseExpOrEnd : List Char → Option ℤ
  | [] => some 0
  | c :: rest =>
    if c = 'e' then
      match rest with
      | '+' :: ds => expDigits ds
      | '-' :: ds => (expDigits ds).map (fun z => -z)
      | ds => expDigits ds
    else none

/-- Assemble a rational from integer digits, fraction digits and a
decimal exponent. -/
def mantissaVal (ip fp : List Char) (e : ℤ) : ℚ :=
  ((digitsVal ip : ℚ) + (digitsVal fp : ℚ) / (10 : ℚ) ^ fp.length) * (10 : ℚ) ^ e

/-- Unsigned decimal float literal: digits, optionally a decimal point
with more digits (at least one digit overall), optionally an exponent.
Rejects anything else, as `float()` raises `ValueError` there. -/
def parseUnsigned (l : List Char) : Option ℚ :=
  let ipart := l.takeWhile Char.isDigit
  let rest₁ := l.dropWhile Char.isDigit
  match rest₁ with
  | '.' :: rest₂ =>
    let fpart := rest₂.takeWhile Char.isDigit
    let rest₃ := rest₂.dropWhile Char.isDigit
    if ipart.isEmpty && fpart.isEmpty then none
    else (parseExpOrEnd rest₃).map (fun e => mantissaVal ipart fpart e)
  | _ =>
    if ipart.isEmpty then none
    else (parseExpOrEnd rest₁).map (fun e => mantissaVal ipart [] e)

/-- Body of a float literal after the optional sign: `nan`, `inf`,
`infinity` (case already lowered) or an unsigned decimal literal. -/
def parseBody (l : List Char) (neg : Bool) : Option FVal :=
  if l = ['n', 'a', 'n'] then some .nan
  else if l = ['i', 'n', 'f'] ∨ l = ['i', 'n', 'f', 'i', 'n', 'i', 't', 'y'] then
    some (if neg then .ninf else .inf)
  else (parseUnsigned l).map (fun q => .num (if neg then -q else q))

/-- Strip leading and trailing whitespace from a character list, as the
implicit `strip` of CPython `float(str)` does. -/
def stripWs (l : List Char) : List Char :=
  ((l.dropWhile Char.isWhitespace).reverse.dropWhile Char.isWhitespace).reverse

/-- Model of CPython `float(s)` on a string: strip whitespace, lower the
case, optional sign, then `nan` / `inf` / `infinity` or a decimal
literal.  `none` models `ValueError`.  (Unicode digits and underscore
separators, which CPython also accepts, are not modelled.) -/
def parsePyFloat (s : String) : Option FVal :=
  match (stripWs s.toList).map Char.toLower with
  | '+' :: rest => parseBody rest false
  | '-' :: rest => parseBody rest true
  | l => parseBody l false

/-- Model of the builtin `float(x)` conversion applied to a parsed JSON
value (solarbackend.py lines 114-117): numbers and booleans convert,
strings are parsed (`ValueError` on failure, message interpolating the
string as `repr` does), and `None`, lists and dicts raise `TypeError`
with the CPython message naming the type. -/
def pyFloat : JsonVal → Except PyErr FVal
  | .jnum q => .ok (.num q)
  | .jbool b => .ok (.num (if b then 1 else 0))
  | .jstr s =>
    match parsePyFloat s with
    | some v => .ok v
    | none => .error (.valueError
        ("could not convert string to float: \x27" ++ s ++ "\x27"))
  | .jnull => .error (.typeError
      "float() argument must be a string or a real number, not \x27NoneType\x27")
  | .jarr _ => .error (.typeError
      "float() argument must be a string or a real number, not \x27list\x27")
  | .jobj _ => .error (.typeError
      "float() argument must be a string or a real number, not \x27dict\x27")

/-- HTTP methods routed to the `/predict` handler
(solarbackend.py line 94). -/
inductive Method where
  | post : Method
  | options : Method
deriving DecidableEq, Repr

/-- A request to `/predict`: the method and the parsed JSON body.  The
claims under study only concern bodies that are JSON objects, so the
body is the object's key/value list (Python dict, no duplicate keys). -/
structure Request where
  method : Method
  body : List (String × JsonVal)

/-- The response sent by the handler: HTTP status plus the JSON fields
the handler ever emits.  `none` everywhere but `status` models the empty
`""` body of the 204 branch. -/
structure Response where
  status : ℕ
  result : Option String
  error : Option String
  probabilities : Option (List (String × FVal))
deriving DecidableEq, Repr

/-- The module-level state after startup: the loaded classifier and
scaler, or `None` when loading failed (solarbackend.py lines 55-73).
Both artifacts are opaque functions on feature rows. -/
structure ServerState where
  model : Option (List FVal → List FVal)
  scaler : Option (List FVal → List FVal)

/-- Python `data[k]` on the request dict: the value, or `KeyError`
(whose `str` is the `repr` of the key). -/
def getItemJ (data : List (String × JsonVal)) (k : String) : Except PyErr JsonVal :=
  match data.lookup k with
  | some v => .ok v
  | none => .error (.keyError ("\x27" ++ k ++ "\x27"))

/-- Python `LABEL_MAP[i]`: the label, or `KeyError` (whose `str` is the
`repr` of the integer key). -/
def labelGet (i : ℕ) : Except PyErr String :=
  match LABEL_MAP i with
  | some s => .ok s
  | none => .error (.keyError (toString i))

/-- Index of the first NaN in a list, if any. -/
def firstNanIdx : List FVal → ℕ → Option ℕ
  | [], _ => none
  | .nan :: _, i => some i
  | _ :: xs, i => firstNanIdx xs (i + 1)

/-- First index of the running maximum: `best` holds the maximum so far
and its index; a later element replaces it only when strictly greater. -/
def argmaxAux : List FVal → ℕ → FVal → ℕ → ℕ
  | [], _, _, best => best
  | x :: xs, i, mx, best =>
    if flt mx x then argmaxAux xs (i + 1) x i else argmaxAux xs (i + 1) mx best

/-- Model of `np.argmax` on a float vector: `ValueError` on an empty
array; the index of the first NaN when one is present (NumPy propagates
NaN as the maximum); otherwise the first index attaining the maximum. -/
def np_argmax : List FVal → Except PyErr ℕ
  | [] => .error (.valueError "attempt to get argmax of an empty sequence")
  | x :: xs =>
    match firstNanIdx (x :: xs) 0 with
    | some i => .ok i
    | none => .ok (argmaxAux xs 1 x 0)

/-- The probabilities dict comprehension (solarbackend.py lines 144-147):
pairs `LABEL_MAP[i]` with each probability; `KeyError` if the prediction
row is longer than the label map (`float(prob)` is the identity here). -/
def probsAux : ℕ → List FVal → Except PyErr (List (String × FVal))
  | _, [] => .ok []
  | i, p :: ps => do
    let lbl ← labelGet i
    let rest ← probsAux (i + 1) ps
    return (lbl, p) :: rest

/-- Steps 2-5 of the try block (solarbackend.py lines 131-153): scale the
feature row, run the model, take the argmax, map it to a label
(`dict.get` with default `"Unknown Class"`), build the probabilities
dict, and answer 200. -/
def model_pipeline (model scaler : List FVal → List FVal)
    (input_array : List FVal) : Except PyErr Response := do
  let scaled_input := scaler input_array
  let prediction_array := model scaled_input
  let predicted_class_index ← np_argmax prediction_array
  let predicted_label := (LABEL_MAP predicted_class_index).getD "Unknown Class"
  let probabilities ← probsAux 0 prediction_array
  return { status := 200, result := some predicted_label,
           error := none, probabilities := some probabilities }

/-- The four `float(data[...])` conversions of the try block
(solarbackend.py lines 114-117), in source order; the first exception
aborts the rest, as in Python. -/
def parse4 (data : List (String × JsonVal)) :
    Except PyErr (FVal × FVal × FVal × FVal) := do
  let voltage ← pyFloat (← getItemJ data "voltage")
  let temperature ← pyFloat (← getItemJ data "temperature")
  let dust ← pyFloat (← getItemJ data "dust")
  let irradiance ← pyFloat (← getItemJ data "irradiance")
  return (voltage, temperature, dust, irradiance)

/-- The whole `try` block of `predict` (solarbackend.py lines 112-153):
parse the four floats, validate, and either answer 400 with the class-4
label and the validation message, or run the model pipeline on the
feature row `[voltage, dust, temperature, irradiance]` (line 131: the
training order, with dust and temperature swapped relative to the
request key order). -/
def tryBody (model scaler : List FVal → List FVal)
    (data : List (String × JsonVal)) : Except PyErr Response := do
  let (voltage, temperature, dust, irradiance) ← parse4 data
  match validate_sensor_inputs voltage temperature dust irradiance with
  | some validation_error => do
    let lbl ← labelGet 4
    return { status := 400, result := some lbl,
             error := some validation_error, probabilities := none }
  | none =>
    model_pipeline model scaler [voltage, dust, temperature, irradiance]

-- ----- The responses the handler can build outside the try block -----

def service_unavailable_response : Response :=
  { status := 503, result := none,
    error := some "Model or Scaler not loaded. Service unavailable.",
    probabilities := none }

def no_content_response : Response :=
  { status := 204, result := none, error := none, probabilities := none }

def required_keys : List String :=
  ["voltage", "temperature", "dust", "irradiance"]

/-- The 400 message for a missing key: the f-string interpolates the
Python list `repr` of `required_keys`. -/
def missing_keys_message : String :=
  "Missing one or more required keys: [\x27voltage\x27, \x27temperature\x27, \x27dust\x27, \x27irradiance\x27]"

def missing_keys_response : Response :=
  { status := 400, result := none, error := some missing_keys_message,
    probabilities := none }

def invalid_format_response : Response :=
  { status := 400, result := none,
    error := some "Invalid data format. All inputs must be numerical.",
    probabilities := none }

/-- The generic `except Exception` response (solarbackend.py line 159):
status 500 with `str(e)` interpolated into the message. -/
def internal_error_response (e : PyErr) : Response :=
  { status := 500, result := none,
    error := some ("Internal server error during prediction: " ++ e.str),
    probabilities := none }

/-- The two `except` clauses of `predict` (lines 155-159): `ValueError`
answers 400 with the fixed format message; any other exception answers
500 with the message interpolating `str(e)`. -/
def handleExceptions : Except PyErr Response → Response
  | .ok resp => resp
  | .error e =>
    if e.isValueError then invalid_format_response
    else internal_error_response e

/-- Python `k in data` on the request dict. -/
def containsKey (data : List (String × JsonVal)) (k : String) : Bool :=
  (data.lookup k).isSome

/-- Embedding of the `/predict` handler (solarbackend.py lines 94-159).
The order of the guards follows the source: the `model is None or
scaler is None` test comes first (line 96), before the OPTIONS branch
(line 100); then the required-keys check (line 107), then the try
block. -/
def predict (st : ServerState) (req : Request) : Response :=
  match st.model, st.scaler with
  | some model, some scaler =>
    if req.method = Method.options then no_content_response
    else
      let data := req.body
      if !(required_keys.all fun k => containsKey data k) then
        missing_keys_response
      else
        handleExceptions (tryBody model scaler data)
  | _, _ => service_unavailable_response

/-- The handler as a state transformer over the module globals.  The
body of `predict` contains no assignment to `model`, `scaler` or
`LABEL_MAP` (no `global` statement, reads only), so the state component
comes back unchanged. -/
def predictApp (st : ServerState) (req : Request) : Response × ServerState :=
  (predict st req, st)

-- ===== Derived predicates and helper lemmas =====

/-- Spec-side reading of one bound check: the value is a finite number
inside the closed interval.  NaN and the infinities satisfy no bound. -/
def finiteIn (lo hi : ℚ) : FVal → Prop
  | .num q => lo ≤ q ∧ q ≤ hi
  | .nan => False
  | .inf => False
  | .ninf => False

instance instDecFiniteIn (lo hi : ℚ) : ∀ v, Decidable (finiteIn lo hi v)
  | .num q => inferInstanceAs (Decidable (lo ≤ q ∧ q ≤ hi))
  | .nan => .isFalse (fun h => h)
  | .inf => .isFalse (fun h => h)
  | .ninf => .isFalse (fun h => h)

/-- The Python bound test `LO <= x <= HI` agrees with the spec-side
interval predicate. -/
theorem inb_eq (lo hi : ℚ) (v : FVal) :
    (fle (.num lo) v && fle v (.num hi)) = decide (finiteIn lo hi v) := by
  cases v <;> simp [fle, finiteIn]

/-- Full case analysis of `validate_sensor_inputs`: it answers `none`
exactly when all four bounds hold, and otherwise the message of the
first violated bound in source order. -/
theorem validate_cases (volt temp dust light : FVal) :
    (validate_sensor_inputs volt temp dust light = none ↔
      finiteIn (-5) 20 volt ∧ finiteIn (-50) 60 temp ∧
      finiteIn 0 1000 dust ∧ finiteIn (-10) 20000 light)
    ∧ (¬ finiteIn (-5) 20 volt →
        validate_sensor_inputs volt temp dust light =
          some (voltage_message volt))
    ∧ (finiteIn (-5) 20 volt → ¬ finiteIn (-50) 60 temp →
        validate_sensor_inputs volt temp dust light =
          some (temperature_message temp))
    ∧ (finiteIn (-5) 20 volt → finiteIn (-50) 60 temp →
        ¬ finiteIn 0 1000 dust →
        validate_sensor_inputs volt temp dust light =
          some (dust_message dust))
    ∧ (finiteIn (-5) 20 volt → finiteIn (-50) 60 temp →
        finiteIn 0 1000 dust → ¬ finiteIn (-10) 20000 light →
        validate_sensor_inputs volt temp dust light =
          some (irradiance_message light)) := by
  simp only [validate_sensor_inputs, VOLT_MIN, VOLT_MAX, TEMP_MIN, TEMP_MAX,
    DUST_MIN, DUST_MAX, LIGHT_MIN, LIGHT_MAX, inb_eq]
  by_cases h1 : finiteIn (-5) 20 volt <;>
  by_cases h2 : finiteIn (-50) 60 temp <;>
  by_cases h3 : finiteIn 0 1000 dust <;>
  by_cases h4 : finiteIn (-10) 20000 light <;>
    simp [h1, h2, h3, h4]

/-- The string `msg` contains, in this order, the fragments `field`,
`val` and `bound`: used to state that a validation message names the
offending field, its value and the acceptable bound. -/
def mentions (msg field val bound : String) : Prop :=
  ∃ s₁ s₂ s₃ s₄,
    msg = s₁ ++ (field ++ (s₂ ++ (val ++ (s₃ ++ (bound ++ s₄)))))

theorem mentions_build (a f b c bd d val lit₁ lit₂ : String)
    (h₁ : lit₁ = a ++ f ++ b) (h₂ : lit₂ = c ++ (bd ++ d)) :
    mentions (lit₁ ++ val ++ lit₂) f val bd := by
  refine ⟨a, b, c, d, ?_⟩
  subst h₁; subst h₂
  simp only [String.append_assoc]

theorem voltage_message_mentions (v : FVal) :
    mentions (voltage_message v) "Voltage" (fmt2 v) "-5.0 V ถึง 20.0 V" :=
  mentions_build "Input Error: " "Voltage" " ("
    " V) อยู่นอกขอบเขตที่รับได้ (" "-5.0 V ถึง 20.0 V" ")" (fmt2 v) _ _ rfl rfl

theorem temperature_message_mentions (t : FVal) :
    mentions (temperature_message t) "Temperature" (fmt2 t)
      "-50.0°C ถึง 60.0°C" :=
  mentions_build "Input Error: " "Temperature" " ("
    "°C) อยู่นอกขอบเขตที่รับได้ (" "-50.0°C ถึง 60.0°C" ")" (fmt2 t) _ _ rfl rfl

theorem dust_message_mentions (d : FVal) :
    mentions (dust_message d) "Dust" (fmt2 d)
      "0.0 µg/m³ ถึง 1000.0 µg/m³" :=
  mentions_build "Input Error: " "Dust" " ("
    " µg/m³) อยู่นอกขอบเขตที่รับได้ (" "0.0 µg/m³ ถึง 1000.0 µg/m³" ")"
    (fmt2 d) _ _ rfl rfl

theorem irradiance_message_mentions (l : FVal) :
    mentions (irradiance_message l) "Irradiance" (fmt2 l)
      "-10.0 lx ถึง 20000.0 lx" :=
  mentions_build "Input Error: " "Irradiance" " ("
    " lx) อยู่นอกขอบเขตที่รับได้ (" "-10.0 lx ถึง 20000.0 lx" ")"
    (fmt2 l) _ _ rfl rfl

/-- When all four keys are looked up successfully, the required-keys
check of the handler passes. -/
theorem keys_present (data : List (String × JsonVal)) (jv jt jd jl : JsonVal)
    (kv : data.lookup "voltage" = some jv)
    (kt : data.lookup "temperature" = some jt)
    (kd : data.lookup "dust" = some jd)
    (kl : data.lookup "irradiance" = some jl) :
    (required_keys.all fun k => containsKey data k) = true := by
  simp [required_keys, containsKey, kv, kt, kd, kl]

/-- A POST request on a loaded service with all keys present runs the
try block under the exception handlers. -/
theorem predict_post_try (st : ServerState) (m sc : List FVal → List FVal)
    (data : List (String × JsonVal))
    (hm : st.model = some m) (hs : st.scaler = some sc)
    (hkeys : (required_keys.all fun k => containsKey data k) = true) :
    predict st ⟨.post, data⟩ = handleExceptions (tryBody m sc data) := by
  obtain ⟨mo, so⟩ := st
  simp only at hm hs
  subst hm; subst hs
  simp [predict, hkeys]

/-- Successful float conversion of all four fields. -/
theorem parse4_ok (data : List (String × JsonVal)) (jv jt jd jl : JsonVal)
    (v t d l : FVal)
    (kv : data.lookup "voltage" = some jv)
    (kt : data.lookup "temperature" = some jt)
    (kd : data.lookup "dust" = some jd)
    (kl : data.lookup "irradiance" = some jl)
    (pv : pyFloat jv = .ok v) (pt : pyFloat jt = .ok t)
    (pd : pyFloat jd = .ok d) (pl : pyFloat jl = .ok l) :
    parse4 data = .ok (v, t, d, l) := by
  simp [parse4, getItemJ, kv, kt, kd, kl, pv, pt, pd, pl,
    Except.instMonad, Except.bind, Except.map, Bind.bind, Functor.map,
    Except.pure]

/-- The try block on a parsed row that fails validation. -/
theorem tryBody_val_err (m sc : List FVal → List FVal)
    (data : List (String × JsonVal)) (v t d l : FVal) (msg : String)
    (hp : parse4 data = .ok (v, t, d, l))
    (hval : validate_sensor_inputs v t d l = some msg) :
    tryBody m sc data = .ok
      { status := 400, result := LABEL_MAP 4, error := some msg,
        probabilities := none } := by
  simp [tryBody, hp, hval, labelGet, LABEL_MAP,
    Except.instMonad, Except.bind, Except.map, Bind.bind, Functor.map,
    Except.pure]

/-- The try block on a parsed row that passes validation: the model
pipeline runs on the feature row in training order. -/
theorem tryBody_valid (m sc : List FVal → List FVal)
    (data : List (String × JsonVal)) (v t d l : FVal)
    (hp : parse4 data = .ok (v, t, d, l))
    (hval : validate_sensor_inputs v t d l = none) :
    tryBody m sc data = model_pipeline m sc [v, d, t, l] := by
  simp [tryBody, hp, hval,
    Except.instMonad, Except.bind, Except.map, Bind.bind, Functor.map,
    Except.pure]

/-- The try block propagates a conversion exception. -/
theorem tryBody_err (m sc : List FVal → List FVal)
    (data : List (String × JsonVal)) (e : PyErr)
    (hp : parse4 data = .error e) :
    tryBody m sc data = .error e := by
  simp [tryBody, hp,
    Except.instMonad, Except.bind, Except.map, Bind.bind, Functor.map,
    Except.pure]

/-- A POST request on a loaded service whose four fields convert to
floats but fail validation answers 400 with the class-4 label and the
validation message. -/
theorem predict_validation_error (st : ServerState)
    (m sc : List FVal → List FVal) (data : List (String × JsonVal))
    (jv jt jd jl : JsonVal) (v t d l : FVal) (msg : String)
    (hm : st.model = some m) (hs : st.scaler = some sc)
    (kv : data.lookup "voltage" = some jv)
    (kt : data.lookup "temperature" = some jt)
    (kd : data.lookup "dust" = some jd)
    (kl : data.lookup "irradiance" = some jl)
    (pv : pyFloat jv = .ok v) (pt : pyFloat jt = .ok t)
    (pd : pyFloat jd = .ok d) (pl : pyFloat jl = .ok l)
    (hval : validate_sensor_inputs v t d l = some msg) :
    predict st ⟨.post, data⟩ =
      { status := 400, result := LABEL_MAP 4, error := some msg,
        probabilities := none } := by
  rw [predict_post_try st m sc data hm hs
      (keys_present data jv jt jd jl kv kt kd kl),
    tryBody_val_err m sc data v t d l msg
      (parse4_ok data jv jt jd jl v t d l kv kt kd kl pv pt pd pl) hval]
  rfl

-- ===== Claims =====

/-- C1: for every request on a loaded service whose four fields convert
to floats and where at least one field lies outside its fixed bound,
`predict` answers HTTP 400 with `result` equal to the label of class
index 4 and an error message that names the first offending field (in
source check order), its formatted value, and the acceptable bound. -/
theorem predict_out_of_range (st : ServerState)
    (m sc : List FVal → List FVal) (data : List (String × JsonVal))
    (jv jt jd jl : JsonVal) (v t d l : FVal)
    (hm : st.model = some m) (hs : st.scaler = some sc)
    (kv : data.lookup "voltage" = some jv)
    (kt : data.lookup "temperature" = some jt)
    (kd : data.lookup "dust" = some jd)
    (kl : data.lookup "irradiance" = some jl)
    (pv : pyFloat jv = .ok v) (pt : pyFloat jt = .ok t)
    (pd : pyFloat jd = .ok d) (pl : pyFloat jl = .ok l)
    (hout : ¬ (finiteIn (-5) 20 v ∧ finiteIn (-50) 60 t ∧
      finiteIn 0 1000 d ∧ finiteIn (-10) 20000 l)) :
    ∃ msg, validate_sensor_inputs v t d l = some msg
    ∧ predict st ⟨.post, data⟩ =
        { status := 400, result := LABEL_MAP 4, error := some msg,
          probabilities := none }
    ∧ (¬ finiteIn (-5) 20 v →
        mentions msg "Voltage" (fmt2 v) "-5.0 V ถึง 20.0 V")
    ∧ (finiteIn (-5) 20 v → ¬ finiteIn (-50) 60 t →
        mentions msg "Temperature" (fmt2 t) "-50.0°C ถึง 60.0°C")
    ∧ (finiteIn (-5) 20 v → finiteIn (-50) 60 t → ¬ finiteIn 0 1000 d →
        mentions msg "Dust" (fmt2 d) "0.0 µg/m³ ถึง 1000.0 µg/m³")
    ∧ (finiteIn (-5) 20 v → finiteIn (-50) 60 t → finiteIn 0 1000 d →
        ¬ finiteIn (-10) 20000 l →
        mentions msg "Irradiance" (fmt2 l) "-10.0 lx ถึง 20000.0 lx") := by
  have hc := validate_cases v t d l
  obtain ⟨msg, hmsg⟩ : ∃ msg, validate_sensor_inputs v t d l = some msg := by
    cases hv : validate_sensor_inputs v t d l with
    | none => exact absurd (hc.1.mp hv) hout
    | some m₀ => exact ⟨m₀, rfl⟩
  refine ⟨msg, hmsg,
    predict_validation_error st m sc data jv jt jd jl v t d l msg
      hm hs kv kt kd kl pv pt pd pl hmsg, ?_, ?_, ?_, ?_⟩
  · intro h1
    have := hc.2.1 h1
    rw [hmsg] at this; cases this
    exact voltage_message_mentions v
  · intro h1 h2
    have := hc.2.2.1 h1 h2
    rw [hmsg] at this; cases this
    exact temperature_message_mentions t
  · intro h1 h2 h3
    have := hc.2.2.2.1 h1 h2 h3
    rw [hmsg] at this; cases this
    exact dust_message_mentions d
  · intro h1 h2 h3 h4
    have := hc.2.2.2.2 h1 h2 h3 h4
    rw [hmsg] at this; cases this
    exact irradiance_message_mentions l

/-- C1 witness: temperature 75 on an otherwise valid request gives the
400 fault-class response whose message names Temperature, its value and
its bound. -/
theorem predict_out_of_range_witness :
    predict ⟨some (fun r => r), some (fun r => r)⟩
      ⟨.post, [("voltage", .jnum 12), ("temperature", .jnum 75),
               ("dust", .jnum 5), ("irradiance", .jnum 800)]⟩ =
      { status := 400, result := LABEL_MAP 4,
        error := some (temperature_message (.num 75)),
        probabilities := none }
    ∧ mentions (temperature_message (.num 75)) "Temperature"
        (fmt2 (.num 75)) "-50.0°C ถึง 60.0°C" := by
  obtain ⟨msg, hmsg, hpred, h1, h2, -⟩ :=
    predict_out_of_range ⟨some (fun r => r), some (fun r => r)⟩
      (fun r => r) (fun r => r)
      [("voltage", .jnum 12), ("temperature", .jnum 75),
       ("dust", .jnum 5), ("irradiance", .jnum 800)]
      (.jnum 12) (.jnum 75) (.jnum 5) (.jnum 800)
      (.num 12) (.num 75) (.num 5) (.num 800)
      rfl rfl rfl rfl rfl rfl rfl rfl rfl rfl (by decide)
  have hval : validate_sensor_inputs (.num 12) (.num 75) (.num 5)
      (.num 800) = some (temperature_message (.num 75)) := rfl
  rw [hval] at hmsg
  cases hmsg
  exact ⟨hpred, h2 (by decide) (by decide)⟩

/-- C2: `validate_sensor_inputs` answers `none` exactly when voltage is
in [-5, 20], temperature in [-50, 60], dust in [0, 1000] and irradiance
in [-10, 20000]; otherwise it answers the message of the first violated
bound, the fields being checked in the order voltage, temperature, dust,
irradiance. -/
theorem validate_sensor_inputs_spec (volt temp dust light : FVal) :
    (validate_sensor_inputs volt temp dust light = none ↔
      finiteIn (-5) 20 volt ∧ finiteIn (-50) 60 temp ∧
      finiteIn 0 1000 dust ∧ finiteIn (-10) 20000 light)
    ∧ (¬ finiteIn (-5) 20 volt →
        validate_sensor_inputs volt temp dust light =
          some (voltage_message volt))
    ∧ (finiteIn (-5) 20 volt → ¬ finiteIn (-50) 60 temp →
        validate_sensor_inputs volt temp dust light =
          some (temperature_message temp))
    ∧ (finiteIn (-5) 20 volt → finiteIn (-50) 60 temp →
        ¬ finiteIn 0 1000 dust →
        validate_sensor_inputs volt temp dust light =
          some (dust_message dust))
    ∧ (finiteIn (-5) 20 volt → finiteIn (-50) 60 temp →
        finiteIn 0 1000 dust → ¬ finiteIn (-10) 20000 light →
        validate_sensor_inputs volt temp dust light =
          some (irradiance_message light)) :=
  validate_cases volt temp dust light

/-- C2 witness: an in-bounds reading validates to `none`; voltage 25
(above 20) is rejected with the voltage message. -/
theorem validate_sensor_inputs_spec_witness :
    validate_sensor_inputs (.num 12) (.num 25) (.num 5) (.num 800) = none
    ∧ validate_sensor_inputs (.num 25) (.num 25) (.num 5) (.num 800) =
        some (voltage_message (.num 25)) :=
  ⟨(validate_sensor_inputs_spec (.num 12) (.num 25) (.num 5)
      (.num 800)).1.mpr (by decide),
   (validate_sensor_inputs_spec (.num 25) (.num 25) (.num 5)
      (.num 800)).2.1 (by decide)⟩

/-- C3: for every in-range request on a loaded service, the feature row
handed to the scaler, and through it to the classifier, is
`[voltage, dust, temperature, irradiance]` — dust and temperature
swapped relative to the request key order.  The scaler `sc` and model
`m` are arbitrary, so the equation pins down exactly what they are
applied to. -/
theorem predict_feature_order (st : ServerState)
    (m sc : List FVal → List FVal) (data : List (String × JsonVal))
    (jv jt jd jl : JsonVal) (v t d l : FVal)
    (hm : st.model = some m) (hs : st.scaler = some sc)
    (kv : data.lookup "voltage" = some jv)
    (kt : data.lookup "temperature" = some jt)
    (kd : data.lookup "dust" = some jd)
    (kl : data.lookup "irradiance" = some jl)
    (pv : pyFloat jv = .ok v) (pt : pyFloat jt = .ok t)
    (pd : pyFloat jd = .ok d) (pl : pyFloat jl = .ok l)
    (hin : finiteIn (-5) 20 v ∧ finiteIn (-50) 60 t ∧
      finiteIn 0 1000 d ∧ finiteIn (-10) 20000 l) :
    predict st ⟨.post, data⟩ =
      handleExceptions (model_pipeline m sc [v, d, t, l]) := by
  have hval : validate_sensor_inputs v t d l = none :=
    (validate_cases v t d l).1.mpr hin
  rw [predict_post_try st m sc data hm hs
      (keys_present data jv jt jd jl kv kt kd kl),
    tryBody_valid m sc data v t d l
      (parse4_ok data jv jt jd jl v t d l kv kt kd kl pv pt pd pl) hval]

/-- C3 witness: the spec example — voltage 12, temperature 25, dust 5,
irradiance 800 feeds the row [12, 5, 25, 800] to the scaler. -/
theorem predict_feature_order_witness :
    predict ⟨some (fun r => r), some (fun r => r)⟩
      ⟨.post, [("voltage", .jnum 12), ("temperature", .jnum 25),
               ("dust", .jnum 5), ("irradiance", .jnum 800)]⟩ =
      handleExceptions (model_pipeline (fun r => r) (fun r => r)
        [.num 12, .num 5, .num 25, .num 800]) :=
  predict_feature_order ⟨some (fun r => r), some (fun r => r)⟩
    (fun r => r) (fun r => r)
    [("voltage", .jnum 12), ("temperature", .jnum 25),
     ("dust", .jnum 5), ("irradiance", .jnum 800)]
    (.jnum 12) (.jnum 25) (.jnum 5) (.jnum 800)
    (.num 12) (.num 25) (.num 5) (.num 800)
    rfl rfl rfl rfl rfl rfl rfl rfl rfl rfl (by decide)

/-- C4: when the model or the scaler failed to load, every request —
any method, any body — gets the fixed 503 service-unavailable response;
the response is a constant, so it does not depend on the request body,
the scaler or the classifier. -/
theorem predict_unavailable (st : ServerState) (req : Request)
    (h : st.model = none ∨ st.scaler = none) :
    predict st req = service_unavailable_response
    ∧ (predict st req).status = 503 := by
  obtain ⟨mo, so⟩ := st
  have heq : predict ⟨mo, so⟩ req = service_unavailable_response := by
    rcases h with h | h <;> simp only at h <;> subst h
    · simp [predict]
    · cases mo <;> simp [predict]
  exact ⟨heq, by rw [heq]; rfl⟩

/-- C4 witness: a fully valid body still draws 503 when the model is
missing. -/
theorem predict_unavailable_witness :
    predict ⟨none, some (fun r => r)⟩
      ⟨.post, [("voltage", .jnum 12), ("temperature", .jnum 25),
               ("dust", .jnum 5), ("irradiance", .jnum 800)]⟩ =
      service_unavailable_response :=
  (predict_unavailable ⟨none, some (fun r => r)⟩
    ⟨.post, [("voltage", .jnum 12), ("temperature", .jnum 25),
             ("dust", .jnum 5), ("irradiance", .jnum 800)]⟩
    (Or.inl rfl)).1

/-- C5 counterexample: an OPTIONS request while the artifacts are not
loaded is answered 503, not 204 — the availability guard (line 96)
runs before the OPTIONS branch (line 100), so the claim fails in the
degraded load state. -/
theorem options_degraded_counterexample :
    predict ⟨none, none⟩ ⟨.options, []⟩ = service_unavailable_response
    ∧ (predict ⟨none, none⟩ ⟨.options, []⟩).status = 503
    ∧ (predict ⟨none, none⟩ ⟨.options, []⟩).status ≠ 204 :=
  ⟨rfl, rfl, by decide⟩

/-- C5 amended: for every OPTIONS request, when the model and the
scaler are both loaded, the handler answers the empty body with
HTTP 204. -/
theorem predict_options_loaded (st : ServerState)
    (m sc : List FVal → List FVal) (body : List (String × JsonVal))
    (hm : st.model = some m) (hs : st.scaler = some sc) :
    predict st ⟨.options, body⟩ = no_content_response
    ∧ (predict st ⟨.options, body⟩).status = 204 := by
  obtain ⟨mo, so⟩ := st
  simp only at hm hs
  subst hm; subst hs
  exact ⟨rfl, rfl⟩

/-- C5 amended witness: OPTIONS on a loaded service answers 204. -/
theorem predict_options_loaded_witness :
    predict ⟨some (fun r => r), some (fun r => r)⟩ ⟨.options, []⟩ =
      no_content_response :=
  (predict_options_loaded ⟨some (fun r => r), some (fun r => r)⟩
    (fun r => r) (fun r => r) [] rfl rfl).1

/-- C6 counterexample: a request whose dust field is a JSON array
raises `TypeError`, and the 500 response returned to the caller embeds
`str(e)` — the message is not generic, it includes the details of the
internal exception, contradicting the claim. -/
theorem internal_error_leaks_counterexample :
    (predict ⟨some (fun r => r), some (fun r => r)⟩
        ⟨.post, [("voltage", .jnum 12), ("temperature", .jnum 25),
                 ("dust", .jarr []), ("irradiance", .jnum 800)]⟩).status = 500
    ∧ ∃ pre, (predict ⟨some (fun r => r), some (fun r => r)⟩
        ⟨.post, [("voltage", .jnum 12), ("temperature", .jnum 25),
                 ("dust", .jarr []), ("irradiance", .jnum 800)]⟩).error =
        some (pre ++ PyErr.str (.typeError
          "float() argument must be a string or a real number, not \x27list\x27")) :=
  ⟨rfl, "Internal server error during prediction: ", rfl⟩

/-- C6 amended: every exception in the try block other than a
`ValueError` is answered with HTTP 500 and an error message that embeds
the string representation of the internal exception (line 159
interpolates `str(e)`); only the logging, not the hiding of details, is
server-side. -/
theorem internal_error_message (st : ServerState)
    (m sc : List FVal → List FVal) (data : List (String × JsonVal))
    (e : PyErr)
    (hm : st.model = some m) (hs : st.scaler = some sc)
    (hkeys : (required_keys.all fun k => containsKey data k) = true)
    (he : tryBody m sc data = .error e) (hne : e.isValueError = false) :
    predict st ⟨.post, data⟩ = internal_error_response e
    ∧ ∃ pre, (predict st ⟨.post, data⟩).error = some (pre ++ e.str) := by
  have h1 : predict st ⟨.post, data⟩ = internal_error_response e := by
    rw [predict_post_try st m sc data hm hs hkeys, he]
    simp [handleExceptions, hne]
  exact ⟨h1, "Internal server error during prediction: ", by rw [h1]; rfl⟩

/-- C6 amended witness: a dict-valued dust field draws the 500 response
carrying the `TypeError` text. -/
theorem internal_error_message_witness :
    predict ⟨some (fun r => r), some (fun r => r)⟩
      ⟨.post, [("voltage", .jnum 12), ("temperature", .jnum 25),
               ("dust", .jobj []), ("irradiance", .jnum 800)]⟩ =
      internal_error_response (.typeError
        "float() argument must be a string or a real number, not \x27dict\x27") :=
  (internal_error_message ⟨some (fun r => r), some (fun r => r)⟩
    (fun r => r) (fun r => r)
    [("voltage", .jnum 12), ("temperature", .jnum 25),
     ("dust", .jobj []), ("irradiance", .jnum 800)]
    (.typeError
      "float() argument must be a string or a real number, not \x27dict\x27")
    rfl rfl rfl rfl rfl).1

/-- C7 counterexample: a null voltage raises `TypeError`, which the
`except ValueError` clause does not catch, so the handler answers 500
with the internal-error message — not 400 with the invalid-format
message as the claim states for every non-numeric value. -/
theorem invalid_format_null_counterexample :
    (predict ⟨some (fun r => r), some (fun r => r)⟩
        ⟨.post, [("voltage", .jnull), ("temperature", .jnum 25),
                 ("dust", .jnum 5), ("irradiance", .jnum 800)]⟩).status = 500
    ∧ (predict ⟨some (fun r => r), some (fun r => r)⟩
        ⟨.post, [("voltage", .jnull), ("temperature", .jnum 25),
                 ("dust", .jnum 5), ("irradiance", .jnum 800)]⟩).status ≠ 400
    ∧ (predict ⟨some (fun r => r), some (fun r => r)⟩
        ⟨.post, [("voltage", .jnull), ("temperature", .jnum 25),
                 ("dust", .jnum 5), ("irradiance", .jnum 800)]⟩).error ≠
        some "Invalid data format. All inputs must be numerical." :=
  ⟨rfl, by decide, by decide⟩

/-- C7 amended: only a `ValueError` during the float conversions (as a
non-numeric string raises) draws 400 with the invalid-format message;
null, arrays and objects raise `TypeError` instead and draw the 500
internal-error response. -/
theorem invalid_format_amended (st : ServerState)
    (m sc : List FVal → List FVal) (data : List (String × JsonVal))
    (hm : st.model = some m) (hs : st.scaler = some sc)
    (hkeys : (required_keys.all fun k => containsKey data k) = true) :
    (∀ msg, parse4 data = .error (.valueError msg) →
        predict st ⟨.post, data⟩ = invalid_format_response)
    ∧ (∀ msg, parse4 data = .error (.typeError msg) →
        predict st ⟨.post, data⟩ = internal_error_response (.typeError msg))
    ∧ pyFloat .jnull = .error (.typeError
        "float() argument must be a string or a real number, not \x27NoneType\x27")
    ∧ (∀ xs, pyFloat (.jarr xs) = .error (.typeError
        "float() argument must be a string or a real number, not \x27list\x27"))
    ∧ (∀ ps, pyFloat (.jobj ps) = .error (.typeError
        "float() argument must be a string or a real number, not \x27dict\x27"))
    ∧ (∀ s, parsePyFloat s = none →
        pyFloat (.jstr s) = .error (.valueError
          ("could not convert string to float: \x27" ++ s ++ "\x27"))) := by
  refine ⟨?_, ?_, rfl, fun xs => rfl, fun ps => rfl, ?_⟩
  · intro msg hp
    rw [predict_post_try st m sc data hm hs hkeys,
      tryBody_err m sc data _ hp]
    rfl
  · intro msg hp
    rw [predict_post_try st m sc data hm hs hkeys,
      tryBody_err m sc data _ hp]
    rfl
  · intro s hs'
    simp [pyFloat, hs']

/-- C7 amended witness: the string "abc" draws the 400 invalid-format
response. -/
theorem invalid_format_amended_witness :
    predict ⟨some (fun r => r), some (fun r => r)⟩
      ⟨.post, [("voltage", .jstr "abc"), ("temperature", .jnum 25),
               ("dust", .jnum 5), ("irradiance", .jnum 800)]⟩ =
      invalid_format_response :=
  (invalid_format_amended ⟨some (fun r => r), some (fun r => r)⟩
    (fun r => r) (fun r => r)
    [("voltage", .jstr "abc"), ("temperature", .jnum 25),
     ("dust", .jnum 5), ("irradiance", .jnum 800)]
    rfl rfl rfl).1 "could not convert string to float: \x27abc\x27" (by rfl)

/-- C8: a POST body missing at least one of the four required keys, on
a loaded service, draws HTTP 400 with the error message listing all
four required keys (the second conjunct exhibits the four key names
inside the message). -/
theorem predict_missing_keys (st : ServerState)
    (m sc : List FVal → List FVal) (data : List (String × JsonVal))
    (hm : st.model = some m) (hs : st.scaler = some sc)
    (h : ∃ k ∈ required_keys, data.lookup k = none) :
    predict st ⟨.post, data⟩ = missing_keys_response
    ∧ missing_keys_message =
      "Missing one or more required keys: [\x27" ++ "voltage" ++
        "\x27, \x27" ++ "temperature" ++ "\x27, \x27" ++ "dust" ++
        "\x27, \x27" ++ "irradiance" ++ "\x27]" := by
  have hkeys : (required_keys.all fun k => containsKey data k) = false := by
    obtain ⟨k, hk, hnone⟩ := h
    refine List.all_eq_false.mpr ⟨k, hk, ?_⟩
    simp [containsKey, hnone]
  obtain ⟨mo, so⟩ := st
  simp only at hm hs
  subst hm; subst hs
  refine ⟨?_, rfl⟩
  simp [predict, hkeys]

/-- C8 witness: a body without the dust key draws the missing-keys
response. -/
theorem predict_missing_keys_witness :
    predict ⟨some (fun r => r), some (fun r => r)⟩
      ⟨.post, [("voltage", .jnum 1), ("temperature", .jnum 2),
               ("irradiance", .jnum 3)]⟩ = missing_keys_response :=
  (predict_missing_keys ⟨some (fun r => r), some (fun r => r)⟩
    (fun r => r) (fun r => r)
    [("voltage", .jnum 1), ("temperature", .jnum 2),
     ("irradiance", .jnum 3)]
    rfl rfl ⟨"dust", by decide, rfl⟩).1

/-- C9: with the startup state fixed, the handler is a pure function of
the request: requests with the same method and body get the same
response, and the shared state (model, scaler — and `LABEL_MAP`, which
is a constant of the embedding and cannot change) comes back unchanged
from every call. -/
theorem predict_deterministic_no_mutation (st : ServerState)
    (r₁ r₂ : Request) (hm : r₁.method = r₂.method)
    (hb : r₁.body = r₂.body) :
    (predictApp st r₁).1 = (predictApp st r₂).1
    ∧ (predictApp st r₁).2 = st ∧ (predictApp st r₂).2 = st := by
  obtain ⟨m₁, b₁⟩ := r₁
  obtain ⟨m₂, b₂⟩ := r₂
  simp only at hm hb
  subst hm; subst hb
  exact ⟨rfl, rfl, rfl⟩

/-- C9 witness. -/
theorem predict_deterministic_no_mutation_witness :
    (predictApp ⟨none, none⟩ ⟨.post, []⟩).1 =
      (predictApp ⟨none, none⟩ ⟨.post, []⟩).1
    ∧ (predictApp ⟨none, none⟩ ⟨.post, []⟩).2 = ⟨none, none⟩ :=
  ⟨(predict_deterministic_no_mutation ⟨none, none⟩ ⟨.post, []⟩
      ⟨.post, []⟩ rfl rfl).1,
   (predict_deterministic_no_mutation ⟨none, none⟩ ⟨.post, []⟩
      ⟨.post, []⟩ rfl rfl).2.1⟩

/-- C10: a NaN in any of the four fields makes validation fail — NaN
satisfies no bound check, since IEEE comparisons with NaN are false —
with the message of the first field (in source order) that is NaN or
otherwise out of bounds; on any loaded service such a request draws the
400 fault-class response, whose form is independent of the scaler and
classifier, so a NaN never reaches them. -/
theorem validate_rejects_nan (v t d l : FVal)
    (h : v = .nan ∨ t = .nan ∨ d = .nan ∨ l = .nan) :
    ∃ msg, validate_sensor_inputs v t d l = some msg
    ∧ (¬ finiteIn (-5) 20 v → msg = voltage_message v)
    ∧ (finiteIn (-5) 20 v → ¬ finiteIn (-50) 60 t →
        msg = temperature_message t)
    ∧ (finiteIn (-5) 20 v → finiteIn (-50) 60 t → ¬ finiteIn 0 1000 d →
        msg = dust_message d)
    ∧ (finiteIn (-5) 20 v → finiteIn (-50) 60 t → finiteIn 0 1000 d →
        ¬ finiteIn (-10) 20000 l → msg = irradiance_message l)
    ∧ ∀ (st : ServerState) (m sc : List FVal → List FVal)
        (data : List (String × JsonVal)) (jv jt jd jl : JsonVal),
        st.model = some m → st.scaler = some sc →
        data.lookup "voltage" = some jv →
        data.lookup "temperature" = some jt →
        data.lookup "dust" = some jd →
        data.lookup "irradiance" = some jl →
        pyFloat jv = .ok v → pyFloat jt = .ok t →
        pyFloat jd = .ok d → pyFloat jl = .ok l →
        predict st ⟨.post, data⟩ =
          { status := 400, result := LABEL_MAP 4, error := some msg,
            probabilities := none } := by
  have hc := validate_cases v t d l
  have hnotall : ¬ (finiteIn (-5) 20 v ∧ finiteIn (-50) 60 t ∧
      finiteIn 0 1000 d ∧ finiteIn (-10) 20000 l) := by
    rintro ⟨h1, h2, h3, h4⟩
    rcases h with h | h | h | h <;> subst h
    · exact h1
    · exact h2
    · exact h3
    · exact h4
  obtain ⟨msg, hmsg⟩ : ∃ msg, validate_sensor_inputs v t d l = some msg := by
    cases hv : validate_sensor_inputs v t d l with
    | none => exact absurd (hc.1.mp hv) hnotall
    | some m₀ => exact ⟨m₀, rfl⟩
  refine ⟨msg, hmsg, ?_, ?_, ?_, ?_, ?_⟩
  · intro h1
    have := hc.2.1 h1; rw [hmsg] at this; cases this; rfl
  · intro h1 h2
    have := hc.2.2.1 h1 h2; rw [hmsg] at this; cases this; rfl
  · intro h1 h2 h3
    have := hc.2.2.2.1 h1 h2 h3; rw [hmsg] at this; cases this; rfl
  · intro h1 h2 h3 h4
    have := hc.2.2.2.2 h1 h2 h3 h4; rw [hmsg] at this; cases this; rfl
  · intro st m sc data jv jt jd jl hm hs kv kt kd kl pv pt pd pl
    exact predict_validation_error st m sc data jv jt jd jl v t d l msg
      hm hs kv kt kd kl pv pt pd pl hmsg

/-- C10 witness: a NaN temperature (with the other fields in range) is
rejected with the temperature message. -/
theorem validate_rejects_nan_witness :
    validate_sensor_inputs (.num 12) .nan (.num 5) (.num 800) =
      some (temperature_message .nan) := by
  obtain ⟨msg, hmsg, h1, h2, -⟩ :=
    validate_rejects_nan (.num 12) .nan (.num 5) (.num 800)
      (Or.inr (Or.inl rfl))
  rw [hmsg, h2 (by decide) (by decide)]
